import Mathlib

/-!
Verification of the inventory-ledger core of `tpenaflor/inv-manager`.

The embedding follows the backend controller (`productController.js`, the
file holding `getAllProducts`, `createProduct`, `adjustStock`, ...), the
`Transaction` Sequelize model, the route validators in
`backend/src/routes/products.js`, and the dashboard aggregation in
`frontend/src/js/app.js`.

Modelling conventions:
- JavaScript integer fields (`stockQuantity`, `quantity`, ...) are `Int`;
  the route validators enforce integrality (`isInt`), so no rounding is lost.
- JavaScript numbers used for money (`price`, `cost`) are exact rationals
  (`Rat`); no claim depends on binary floating-point rounding.
- The persistent store is a `Store` value: a list of product rows, a list of
  transaction rows (newest first, mirroring `createdAt DESC` ordering), and
  the auto-increment counter for product ids.
- Each controller is a pure function from a request and a `Store` to a
  response and an updated `Store`; an error response leaves the store as is,
  exactly as the controller returns before any `update`/`create` call.
-/

/-- The `type` ENUM of the `Transaction` model: `'in' | 'out' | 'adjustment'`.
`in` is a Lean keyword, so the constructors are prefixed with `stock`. -/
inductive TransactionType where
  | stockIn
  | stockOut
  | adjustment
deriving Repr, DecidableEq

/-- A row of the `Transaction` model (`Transaction.js`): movement kind,
magnitude quantity, the stock before and after, a reason and optional notes,
plus foreign keys to the product and the acting user. -/
structure Transaction where
  productId : Nat
  userId : Nat
  type : TransactionType
  quantity : Int
  previousStock : Int
  newStock : Int
  reason : String
  notes : Option String
deriving Repr, DecidableEq

/-- A row of the `Product` model, restricted to the fields the ledger and the
dashboard read: id, name, sku, price/cost, the denormalized `stockQuantity`,
`minStockLevel`, optional `maxStockLevel`, unit and the soft-delete flag
`isActive` (products are created active; `deleteProduct` flips it to false). -/
structure Product where
  id : Nat
  name : String
  sku : String
  price : Rat
  cost : Rat
  stockQuantity : Int
  minStockLevel : Int
  maxStockLevel : Option Int
  unit : String
  isActive : Bool
deriving Repr, DecidableEq

/-- The persistent store: products table, transactions table (newest first)
and the auto-increment counter used for fresh product ids. -/
structure Store where
  nextProductId : Nat
  products : List Product
  transactions : List Transaction
deriving Repr, DecidableEq

/-- The empty database. -/
def emptyStore : Store := ⟨1, [], []⟩

/-- `Product.findByPk(id)`: the product row with the given primary key. -/
def findByPk (s : Store) (pid : Nat) : Option Product :=
  s.products.find? (fun p => p.id == pid)

/-- `product.update({ stockQuantity: newStock })`: overwrite the stock
counter of the row(s) with the given id (an absolute write, not an
increment — the controller stores the value it computed from its own read). -/
def updateStock (ps : List Product) (pid : Nat) (newStock : Int) : List Product :=
  ps.map (fun p => if p.id == pid then { p with stockQuantity := newStock } else p)

/-- The possible responses of the `adjustStock` controller:
400 from the route validator, 404 for an unknown product, 400
`'Insufficient stock'`, 500 from the catch block, or the 200 payload
`{ id, name, previousStock, newStock, adjustment }`. -/
inductive AdjustResult where
  | validationError
  | notFound
  | insufficientStock
  | serverError
  | ok (id : Nat) (name : String) (previousStock newStock adjustment : Int)
deriving Repr, DecidableEq

/-- Whether the response is one of the error responses. -/
def AdjustResult.isError : AdjustResult → Bool
  | .ok _ _ _ _ _ => false
  | _ => true

/-- The `adjustStock` controller (`productController.js` lines 205-252),
with the route-level `stockAdjustmentValidation` chain
(`body('quantity').isInt().custom(value => value !== 0)`,
`body('reason').notEmpty().trim()`) folded in as the `validationResult`
check at the top. On any error path the controller returns before mutating;
on success it overwrites `stockQuantity` and inserts one `Transaction` with
`type` from the sign of `quantity`, `quantity: Math.abs(quantity)`, and
responds with `{ previousStock, newStock, adjustment: quantity }`. -/
def adjustStock (s : Store) (pid : Nat) (quantity : Int) (reason : String)
    (notes : Option String) (userId : Nat) : AdjustResult × Store :=
  if quantity = 0 ∨ reason = "" then (.validationError, s)
  else
    match s.products.find? (fun p => p.id == pid) with
    | none => (.notFound, s)
    | some product =>
      let previousStock := product.stockQuantity
      let newStock := previousStock + quantity
      if newStock < 0 then (.insufficientStock, s)
      else
        let t : Transaction :=
          { productId := product.id
            userId := userId
            type := if quantity > 0 then .stockIn else .stockOut
            quantity := |quantity|
            previousStock := previousStock
            newStock := newStock
            reason := reason
            notes := notes }
        (.ok product.id product.name previousStock newStock quantity,
         { s with
            products := updateStock s.products pid newStock
            transactions := t :: s.transactions })

example :
    (adjustStock ⟨2, [⟨1, "Widget", "W-1", 5, 3, 10, 5, none, "piece", true⟩], []⟩
      1 (-5) "sale" none 7).1 = .ok 1 "Widget" 10 5 (-5) := by decide

example :
    (adjustStock ⟨2, [⟨1, "Widget", "W-1", 5, 3, 10, 5, none, "piece", true⟩], []⟩
      1 (-11) "sale" none 7).1 = .insufficientStock := by decide

/-! ## Product creation -/

/-- The request body fields `createProduct` destructures and the route
validator `productValidation` constrains. Descriptive fields with no role in
any claim (description, barcode, category/supplier ids, location) are
omitted; `sku` is kept optional because the controller generates one when it
is absent. -/
structure CreateProductRequest where
  name : String
  sku : Option String
  price : Rat
  cost : Rat
  stockQuantity : Option Int
  minStockLevel : Option Int
  maxStockLevel : Option Int
  unit : Option String
deriving Repr, DecidableEq

/-- The `productValidation` chain of `routes/products.js` restricted to the
modelled fields: non-empty name, non-negative price and cost, and the three
optional integer fields non-negative when present. -/
def productValidation (req : CreateProductRequest) : Bool :=
  req.name ≠ "" && 0 ≤ req.price && 0 ≤ req.cost
    && (req.stockQuantity.getD 0) ≥ 0
    && (req.minStockLevel.getD 0) ≥ 0
    && (req.maxStockLevel.getD 0) ≥ 0

/-- JavaScript `x || d` for an optional integer field: the default is taken
both when the field is absent (`undefined`) and when it equals `0` (falsy). -/
def jsIntOr (v : Option Int) (d : Int) : Int :=
  match v with
  | none => d
  | some x => if x = 0 then d else x

/-- JavaScript `x || d` for an optional string field (`unit || 'piece'`):
`undefined` and the empty string are both falsy. -/
def jsStrOr (v : Option String) (d : String) : String :=
  match v with
  | none => d
  | some x => if x = "" then d else x

/-- The object literal passed to `Product.create` in `createProduct`
(controller lines 110-124): `stockQuantity: stockQuantity || 0`,
`minStockLevel: minStockLevel || 10`, `unit: unit || 'piece'`; the fresh row
takes the next auto-increment id and is active (the model's default).
`generateSKU` is elided to an opaque placeholder: no claim reads the sku. -/
def newProduct (s : Store) (req : CreateProductRequest) : Product :=
  { id := s.nextProductId
    name := req.name
    sku := req.sku.getD "GEN-SKU"
    price := req.price
    cost := req.cost
    stockQuantity := jsIntOr req.stockQuantity 0
    minStockLevel := jsIntOr req.minStockLevel 10
    maxStockLevel := req.maxStockLevel
    unit := jsStrOr req.unit "piece"
    isActive := true }

/-- The responses of `createProduct`: the 400 validation response or the 201
payload carrying the created product. -/
inductive CreateResult where
  | validationError
  | created (p : Product)
deriving Repr, DecidableEq

/-- The `createProduct` controller (`productController.js` lines 81-158):
after validation it inserts the new product row and, only
`if (stockQuantity > 0)` (the raw request field, `undefined > 0` being
false), inserts one initial `'in'` movement with `previousStock: 0`,
`newStock: stockQuantity`, `reason: 'Initial stock'`. -/
def createProduct (s : Store) (req : CreateProductRequest) (userId : Nat) :
    CreateResult × Store :=
  if ¬ productValidation req then (.validationError, s)
  else
    let product := newProduct s req
    let s1 : Store :=
      { s with
          nextProductId := s.nextProductId + 1
          products := s.products ++ [product] }
    match req.stockQuantity with
    | some v =>
      if v > 0 then
        let t : Transaction :=
          { productId := product.id
            userId := userId
            type := .stockIn
            quantity := v
            previousStock := 0
            newStock := v
            reason := "Initial stock"
            notes := some "Product creation" }
        (.created product, { s1 with transactions := t :: s1.transactions })
      else (.created product, s1)
    | none => (.created product, s1)

/-! ## Read side: low-stock classification and the dashboard -/

/-- The low-stock predicate of the frontend dashboard
(`app.js` line 183: `p.stockQuantity <= p.minStockLevel`), the pure
`isLowStock` of the spec. -/
def isLowStock (p : Product) : Bool :=
  p.stockQuantity ≤ p.minStockLevel

/-- `outOfStock`: `currentStock == 0`. -/
def outOfStock (p : Product) : Bool :=
  p.stockQuantity = 0

/-- The where-clause `getAllProducts` builds when `lowStock === 'true'`
(controller lines 11 and 25-29): `isActive: true` together with
`stockQuantity < minStockLevel` — a strict comparison (`Op.lt`). -/
def lowStockWhere (p : Product) : Bool :=
  p.isActive && p.stockQuantity < p.minStockLevel

/-- The row set of the `lowStock` product listing (pagination elided: the
claims quantify over membership in the result set, which `limit`/`offset`
only window). -/
def getAllProductsLowStock (ps : List Product) : List Product :=
  ps.filter lowStockWhere

/-- The three product-derived dashboard statistics. -/
structure DashboardStats where
  totalProducts : Nat
  lowStockProducts : Nat
  totalValue : Rat
deriving Repr, DecidableEq

/-- `updateDashboardStats` of `app.js` (lines 181-191), restricted to its
product-derived outputs (`totalCategories = categories.length` concerns
categories, not products): `totalProducts = products.length`,
`lowStockProducts` counts `p.stockQuantity <= p.minStockLevel`, and
`totalValue` is `reduce((sum, p) => sum + p.stockQuantity * p.price, 0)`. -/
def updateDashboardStats (products : List Product) : DashboardStats :=
  { totalProducts := products.length
    lowStockProducts := (products.filter (fun p => p.stockQuantity ≤ p.minStockLevel)).length
    totalValue := products.foldl (fun sum p => sum + (p.stockQuantity : Rat) * p.price) 0 }

/-- The aggregation the spec describes for `summarize(products)`, stated
from its words: low-stock count, valuation summed over the *active* products
only, and the count of *active* products. Written only to compare against
`updateDashboardStats`. -/
def summarizeSpec (products : List Product) : DashboardStats :=
  { totalProducts := (products.filter (fun p => p.isActive)).length
    lowStockProducts := (products.filter (fun p => isLowStock p)).length
    totalValue :=
      ((products.filter (fun p => p.isActive)).map
        (fun p => (p.stockQuantity : Rat) * p.price)).sum }

/-! ## Operation sequences over the store -/

/-- One API call that touches the ledger: a product creation or a stock
adjustment. -/
inductive Op where
  | create (req : CreateProductRequest) (userId : Nat)
  | adjust (pid : Nat) (quantity : Int) (reason : String) (notes : Option String) (userId : Nat)

/-- Apply one call to the store, keeping only the store (responses are
examined separately). -/
def applyOp (s : Store) : Op → Store
  | .create req userId => (createProduct s req userId).2
  | .adjust pid q reason notes userId => (adjustStock s pid q reason notes userId).2

/-- Run a sequence of calls from a starting store. -/
def run (s : Store) : List Op → Store
  | [] => s
  | op :: ops => run (applyOp s op) ops

/-- The most recent movement of a product: the first match in the
newest-first transaction list. -/
def latestTransaction (txs : List Transaction) (pid : Nat) : Option Transaction :=
  txs.find? (fun t => t.productId == pid)

/-! ## Shape lemmas for `adjustStock` -/

/-- A call rejected by the route validator: zero quantity or blank reason. -/
theorem adjustStock_validationError (s : Store) (pid : Nat) (q : Int) (r : String)
    (n : Option String) (u : Nat) (h : q = 0 ∨ r = "") :
    adjustStock s pid q r n u = (.validationError, s) := by
  unfold adjustStock
  rw [if_pos h]

/-- A call naming a product id that matches no row returns 404 untouched. -/
theorem adjustStock_notFound (s : Store) (pid : Nat) (q : Int) (r : String)
    (n : Option String) (u : Nat) (hval : ¬ (q = 0 ∨ r = ""))
    (hf : s.products.find? (fun x => x.id == pid) = none) :
    adjustStock s pid q r n u = (.notFound, s) := by
  unfold adjustStock
  rw [if_neg hval, hf]

/-- A call that would drive the stock negative returns the
`'Insufficient stock'` 400 with the store untouched. -/
theorem adjustStock_insufficient (s : Store) (pid : Nat) (q : Int) (r : String)
    (n : Option String) (u : Nat) (p : Product) (hval : ¬ (q = 0 ∨ r = ""))
    (hf : s.products.find? (fun x => x.id == pid) = some p)
    (hneg : p.stockQuantity + q < 0) :
    adjustStock s pid q r n u = (.insufficientStock, s) := by
  unfold adjustStock
  rw [if_neg hval, hf]
  simp only [if_pos hneg]

/-- A validated, in-range call: the response carries
`previousStock`, `newStock` and `adjustment = quantity` (signed), the
product row is overwritten with `newStock`, and one movement with the
magnitude quantity and sign-derived kind is prepended. -/
theorem adjustStock_success (s : Store) (pid : Nat) (q : Int) (r : String)
    (n : Option String) (u : Nat) (p : Product) (hval : ¬ (q = 0 ∨ r = ""))
    (hf : s.products.find? (fun x => x.id == pid) = some p)
    (hnn : 0 ≤ p.stockQuantity + q) :
    adjustStock s pid q r n u =
      (.ok p.id p.name p.stockQuantity (p.stockQuantity + q) q,
       { s with
          products := updateStock s.products pid (p.stockQuantity + q)
          transactions :=
            { productId := p.id
              userId := u
              type := if q > 0 then .stockIn else .stockOut
              quantity := |q|
              previousStock := p.stockQuantity
              newStock := p.stockQuantity + q
              reason := r
              notes := n } :: s.transactions }) := by
  unfold adjustStock
  rw [if_neg hval, hf]
  simp only [if_neg (not_lt.mpr hnn)]

/-- Every error response of `adjustStock` leaves the store exactly as it
was: the controller returns on each error path before `product.update` or
`Transaction.create` runs. -/
theorem adjustStock_error_no_mutation (s : Store) (pid : Nat) (q : Int) (r : String)
    (n : Option String) (u : Nat)
    (h : (adjustStock s pid q r n u).1.isError = true) :
    (adjustStock s pid q r n u).2 = s := by
  by_cases hval : q = 0 ∨ r = ""
  · rw [adjustStock_validationError s pid q r n u hval]
  · cases hf : s.products.find? (fun x => x.id == pid) with
    | none => rw [adjustStock_notFound s pid q r n u hval hf]
    | some p =>
      by_cases hneg : p.stockQuantity + q < 0
      · rw [adjustStock_insufficient s pid q r n u p hval hf hneg]
      · rw [adjustStock_success s pid q r n u p hval hf (not_lt.mp hneg)] at h
        simp [AdjustResult.isError] at h


/-! ## The ledger invariant -/

/-- The combined ledger invariant of a store reachable from the empty
database: product ids lie below the auto-increment counter (so a fresh id
matches no existing row or movement), movement product ids lie below it too,
every product's denormalized `stockQuantity` equals the `newStock` of its
most recent movement (or `0`, its defaulted creation stock, when it has no
movement), and every stored movement is internally consistent: `newStock`
is `previousStock` plus the magnitude quantity for kind `'in'` and minus it
for kind `'out'`, `newStock` is non-negative and the quantity positive. -/
def ledgerInvariant (s : Store) : Prop :=
  (∀ p ∈ s.products, p.id < s.nextProductId) ∧
  (∀ t ∈ s.transactions, t.productId < s.nextProductId) ∧
  (∀ p ∈ s.products,
    p.stockQuantity = ((latestTransaction s.transactions p.id).map Transaction.newStock).getD 0) ∧
  (∀ t ∈ s.transactions,
    (t.type = .stockIn → t.newStock = t.previousStock + t.quantity) ∧
    (t.type = .stockOut → t.newStock = t.previousStock - t.quantity) ∧
    0 ≤ t.newStock ∧ 0 < t.quantity)

theorem ledgerInvariant_emptyStore : ledgerInvariant emptyStore := by
  simp [ledgerInvariant, emptyStore]

theorem latestTransaction_cons_eq {t : Transaction} {txs : List Transaction} {pid : Nat}
    (h : t.productId = pid) : latestTransaction (t :: txs) pid = some t := by
  simp [latestTransaction, List.find?_cons_of_pos, h]

theorem latestTransaction_cons_ne {t : Transaction} {txs : List Transaction} {pid : Nat}
    (h : t.productId ≠ pid) : latestTransaction (t :: txs) pid = latestTransaction txs pid := by
  unfold latestTransaction
  rw [List.find?_cons_of_neg]
  simpa using h

theorem latestTransaction_eq_none {txs : List Transaction} {pid : Nat}
    (h : ∀ t ∈ txs, t.productId ≠ pid) : latestTransaction txs pid = none := by
  unfold latestTransaction
  rw [List.find?_eq_none]
  intro t ht
  simpa using h t ht

/-- `adjustStock` preserves the ledger invariant. -/
theorem ledgerInvariant_adjustStock (s : Store) (pid : Nat) (q : Int) (r : String)
    (n : Option String) (u : Nat) (h : ledgerInvariant s) :
    ledgerInvariant (adjustStock s pid q r n u).2 := by
  by_cases hval : q = 0 ∨ r = ""
  · rw [adjustStock_validationError s pid q r n u hval]; exact h
  · cases hf : s.products.find? (fun x => x.id == pid) with
    | none => rw [adjustStock_notFound s pid q r n u hval hf]; exact h
    | some p =>
      by_cases hneg : p.stockQuantity + q < 0
      · rw [adjustStock_insufficient s pid q r n u p hval hf hneg]; exact h
      · rw [adjustStock_success s pid q r n u p hval hf (not_lt.mp hneg)]
        obtain ⟨hpid, htid, hstock, htx⟩ := h
        have hpmem : p ∈ s.products := List.mem_of_find?_eq_some hf
        have hpeq : p.id = pid := by
          have := List.find?_some hf
          simpa using this
        have hq : q ≠ 0 := by
          intro h0; exact hval (Or.inl h0)
        refine ⟨?_, ?_, ?_, ?_⟩
        · intro p' hp'
          rcases List.mem_map.mp hp' with ⟨p0, hp0, rfl⟩
          have : (if p0.id == pid then { p0 with stockQuantity := p.stockQuantity + q } else p0).id = p0.id := by
            split <;> rfl
          rw [this]
          exact hpid p0 hp0
        · intro t ht
          rcases List.mem_cons.mp ht with h1 | h1
          · rw [h1]; exact hpeq ▸ (hpeq ▸ hpid p hpmem)
          · exact htid t h1
        · intro p' hp'
          rcases List.mem_map.mp hp' with ⟨p0, hp0, rfl⟩
          by_cases hid : p0.id = pid
          · have hcond : (p0.id == pid) = true := by simpa using hid
            simp only [hcond, if_true]
            rw [latestTransaction_cons_eq (by simpa [hpeq] using hid.symm ▸ rfl)]
            rfl
          · have hcond : (p0.id == pid) = false := by simpa using hid
            simp only [hcond, Bool.false_eq_true, if_false]
            rw [latestTransaction_cons_ne (by simpa [hpeq] using Ne.symm (hpeq ▸ hid))]
            exact hstock p0 hp0
        · intro t ht
          rcases List.mem_cons.mp ht with h1 | h1
          · subst h1
            rcases lt_or_gt_of_ne hq with hlt | hgt
            · refine ⟨?_, ?_, not_lt.mp hneg, ?_⟩
              · intro htype
                simp only [if_neg (not_lt.mpr (le_of_lt hlt))] at htype
                exact absurd htype (by decide)
              · intro _
                simp only
                rw [abs_of_neg hlt]
                ring
              · simp only
                rw [abs_pos]
                exact hq
            · refine ⟨?_, ?_, not_lt.mp hneg, ?_⟩
              · intro _
                simp only
                rw [abs_of_pos hgt]
              · intro htype
                simp only [if_pos hgt] at htype
                exact absurd htype (by decide)
              · simp only
                rw [abs_pos]
                exact hq
          · exact htx t h1

/-! ## Shape lemmas for `createProduct` -/

/-- A creation rejected by `productValidation` changes nothing. -/
theorem createProduct_validationError (s : Store) (req : CreateProductRequest) (u : Nat)
    (h : productValidation req = false) :
    createProduct s req u = (.validationError, s) := by
  unfold createProduct
  rw [if_pos (by simp [h])]

/-- A valid creation whose body omits `stockQuantity`: the product row is
inserted with the defaulted fields and no movement is created
(`undefined > 0` is false). -/
theorem createProduct_noStock (s : Store) (req : CreateProductRequest) (u : Nat)
    (hv : productValidation req = true) (hsq : req.stockQuantity = none) :
    createProduct s req u =
      (.created (newProduct s req),
       { nextProductId := s.nextProductId + 1
         products := s.products ++ [newProduct s req]
         transactions := s.transactions }) := by
  unfold createProduct
  rw [if_neg (by simp [hv]), hsq]

/-- A valid creation with `stockQuantity: 0`: `0 > 0` is false, so again no
initial movement. -/
theorem createProduct_zeroStock (s : Store) (req : CreateProductRequest) (u : Nat)
    (hv : productValidation req = true) (hsq : req.stockQuantity = some 0) :
    createProduct s req u =
      (.created (newProduct s req),
       { nextProductId := s.nextProductId + 1
         products := s.products ++ [newProduct s req]
         transactions := s.transactions }) := by
  unfold createProduct
  rw [if_neg (by simp [hv]), hsq]
  norm_num

/-- A valid creation with positive `stockQuantity`: the row is inserted and
one initial `'in'` movement from `0` to `stockQuantity` is created. -/
theorem createProduct_withStock (s : Store) (req : CreateProductRequest) (u : Nat)
    (v : Int) (hv : productValidation req = true) (hsq : req.stockQuantity = some v)
    (hpos : v > 0) :
    createProduct s req u =
      (.created (newProduct s req),
       { nextProductId := s.nextProductId + 1
         products := s.products ++ [newProduct s req]
         transactions :=
           { productId := s.nextProductId
             userId := u
             type := .stockIn
             quantity := v
             previousStock := 0
             newStock := v
             reason := "Initial stock"
             notes := some "Product creation" } :: s.transactions }) := by
  unfold createProduct
  rw [if_neg (by simp [hv]), hsq]
  simp only [if_pos hpos]
  rfl

/-- `createProduct` preserves the ledger invariant. -/
theorem ledgerInvariant_createProduct (s : Store) (req : CreateProductRequest) (u : Nat)
    (h : ledgerInvariant s) : ledgerInvariant (createProduct s req u).2 := by
  obtain ⟨hpid, htid, hstock, htx⟩ := h
  by_cases hv : productValidation req = true
  case neg =>
    rw [createProduct_validationError s req u (by simpa using hv)]
    exact ⟨hpid, htid, hstock, htx⟩
  case pos =>
  have hfresh : ∀ t ∈ s.transactions, t.productId ≠ s.nextProductId := by
    intro t ht
    exact Nat.ne_of_lt (htid t ht)
  have hnewid : (newProduct s req).id = s.nextProductId := rfl
  cases hsq : req.stockQuantity with
  | none =>
    rw [createProduct_noStock s req u hv hsq]
    refine ⟨?_, ?_, ?_, htx⟩
    · intro p hp
      rcases List.mem_append.mp hp with h1 | h1
      · exact Nat.lt_succ_of_lt (hpid p h1)
      · rw [List.mem_singleton.mp h1, hnewid]; exact Nat.lt_succ_self _
    · intro t ht
      exact Nat.lt_succ_of_lt (htid t ht)
    · intro p hp
      rcases List.mem_append.mp hp with h1 | h1
      · exact hstock p h1
      · rw [List.mem_singleton.mp h1]
        rw [@latestTransaction_eq_none s.transactions (newProduct s req).id (by rw [hnewid]; exact hfresh)]
        simp [newProduct, jsIntOr, hsq]
  | some v =>
    by_cases hpos : v > 0
    case pos =>
      rw [createProduct_withStock s req u v hv hsq hpos]
      refine ⟨?_, ?_, ?_, ?_⟩
      · intro p hp
        rcases List.mem_append.mp hp with h1 | h1
        · exact Nat.lt_succ_of_lt (hpid p h1)
        · rw [List.mem_singleton.mp h1, hnewid]; exact Nat.lt_succ_self _
      · intro t ht
        rcases List.mem_cons.mp ht with h1 | h1
        · rw [h1]; exact Nat.lt_succ_self _
        · exact Nat.lt_succ_of_lt (htid t h1)
      · intro p hp
        rcases List.mem_append.mp hp with h1 | h1
        · rw [latestTransaction_cons_ne (by simpa using (Nat.ne_of_lt (hpid p h1)).symm)]
          exact hstock p h1
        · rw [List.mem_singleton.mp h1]
          rw [latestTransaction_cons_eq (by rw [hnewid])]
          simp [newProduct, jsIntOr, hsq, ne_of_gt hpos]
      · intro t ht
        rcases List.mem_cons.mp ht with h1 | h1
        · subst h1
          refine ⟨fun _ => by simp, fun htype => by simp at htype, le_of_lt hpos, hpos⟩
        · exact htx t h1
    case neg =>
      have hv0 : v = 0 := by
        have hge : v ≥ 0 := by
          have := hv
          unfold productValidation at this
          simp only [Bool.and_eq_true, decide_eq_true_eq] at this
          have h2 := this.1.1.2
          rwa [hsq] at h2
        omega
      subst hv0
      rw [createProduct_zeroStock s req u hv hsq]
      refine ⟨?_, ?_, ?_, htx⟩
      · intro p hp
        rcases List.mem_append.mp hp with h1 | h1
        · exact Nat.lt_succ_of_lt (hpid p h1)
        · rw [List.mem_singleton.mp h1, hnewid]; exact Nat.lt_succ_self _
      · intro t ht
        exact Nat.lt_succ_of_lt (htid t ht)
      · intro p hp
        rcases List.mem_append.mp hp with h1 | h1
        · exact hstock p h1
        · rw [List.mem_singleton.mp h1]
          rw [@latestTransaction_eq_none s.transactions (newProduct s req).id (by rw [hnewid]; exact hfresh)]
          simp [newProduct, jsIntOr, hsq]

/-- Every reachable store satisfies the ledger invariant. -/
theorem ledgerInvariant_run (ops : List Op) (s : Store) (h : ledgerInvariant s) :
    ledgerInvariant (run s ops) := by
  induction ops generalizing s with
  | nil => exact h
  | cons op ops ih =>
    cases op with
    | create req u => exact ih _ (ledgerInvariant_createProduct s req u h)
    | adjust pid q r n u => exact ih _ (ledgerInvariant_adjustStock s pid q r n u h)

/-! ## Claims C1-C4 -/

/-- C1: for every product P, after any sequence of `adjustStock` calls
(successful or failed) and any product creation, `P.stockQuantity` equals
the `newStock` of P's most recent movement — or P's initial stock when it
has no movement: in every reachable store a product without movements was
created with defaulted initial stock `0` (`createProduct` seeds an initial
movement exactly when the requested starting stock is positive), and the
`getD 0` below returns that initial stock; and no failed call alters the
stock or creates a movement (every error path of `adjustStock` returns the
store untouched). -/
theorem stockQuantity_eq_latest_movement_newStock :
    (∀ ops : List Op, ∀ p ∈ (run emptyStore ops).products,
      p.stockQuantity =
        ((latestTransaction (run emptyStore ops).transactions p.id).map
          Transaction.newStock).getD 0) ∧
    (∀ (s : Store) (pid : Nat) (q : Int) (r : String) (n : Option String) (u : Nat),
      (adjustStock s pid q r n u).1.isError = true → (adjustStock s pid q r n u).2 = s) := by
  constructor
  · intro ops
    exact (ledgerInvariant_run ops emptyStore ledgerInvariant_emptyStore).2.2.1
  · exact adjustStock_error_no_mutation

/-- Witness for C1: a creation with initial stock 10 followed by a `-3`
adjustment leaves the product at 7, the `newStock` of its latest movement;
and a failed (zero-quantity) adjustment leaves a store untouched. -/
theorem stockQuantity_eq_latest_movement_newStock_witness :
    ((⟨1, "Widget", "W-1", 5, 3, 7, 5, none, "piece", true⟩ : Product).stockQuantity =
      ((latestTransaction
          (run emptyStore
            [.create ⟨"Widget", some "W-1", 5, 3, some 10, some 5, none, some "piece"⟩ 1,
             .adjust 1 (-3) "sale" none 1]).transactions
          (⟨1, "Widget", "W-1", 5, 3, 7, 5, none, "piece", true⟩ : Product).id).map
        Transaction.newStock).getD 0) ∧
    (adjustStock ⟨2, [⟨1, "Widget", "W-1", 5, 3, 7, 5, none, "piece", true⟩], []⟩
        1 0 "count" none 1).2 =
      ⟨2, [⟨1, "Widget", "W-1", 5, 3, 7, 5, none, "piece", true⟩], []⟩ :=
  ⟨stockQuantity_eq_latest_movement_newStock.1
      [.create ⟨"Widget", some "W-1", 5, 3, some 10, some 5, none, some "piece"⟩ 1,
       .adjust 1 (-3) "sale" none 1]
      ⟨1, "Widget", "W-1", 5, 3, 7, 5, none, "piece", true⟩ (by decide),
   stockQuantity_eq_latest_movement_newStock.2
      ⟨2, [⟨1, "Widget", "W-1", 5, 3, 7, 5, none, "piece", true⟩], []⟩
      1 0 "count" none 1 (by decide)⟩

/-- C2: every stored movement of a reachable store satisfies
`newStock = previousStock + quantity` for kind `'in'` and
`newStock = previousStock - quantity` for kind `'out'` (the stored quantity
being the positive magnitude, with the kind derived from the sign of the
requested quantity), `newStock >= 0`, and `quantity != 0`. -/
theorem stored_transactions_wellFormed :
    ∀ ops : List Op, ∀ t ∈ (run emptyStore ops).transactions,
      (t.type = .stockIn → t.newStock = t.previousStock + t.quantity) ∧
      (t.type = .stockOut → t.newStock = t.previousStock - t.quantity) ∧
      0 ≤ t.newStock ∧ t.quantity ≠ 0 ∧ 0 < t.quantity := by
  intro ops t ht
  have h := (ledgerInvariant_run ops emptyStore ledgerInvariant_emptyStore).2.2.2 t ht
  exact ⟨h.1, h.2.1, h.2.2.1, ne_of_gt h.2.2.2, h.2.2.2⟩

/-- Witness for C2: the movement stored by a `+2` adjustment on a product
created at stock 5. -/
theorem stored_transactions_wellFormed_witness :
    ((⟨1, 4, .stockIn, 2, 5, 7, "receipt", none⟩ : Transaction).type = .stockIn →
      (⟨1, 4, .stockIn, 2, 5, 7, "receipt", none⟩ : Transaction).newStock =
        (⟨1, 4, .stockIn, 2, 5, 7, "receipt", none⟩ : Transaction).previousStock +
          (⟨1, 4, .stockIn, 2, 5, 7, "receipt", none⟩ : Transaction).quantity) ∧
    ((⟨1, 4, .stockIn, 2, 5, 7, "receipt", none⟩ : Transaction).type = .stockOut →
      (⟨1, 4, .stockIn, 2, 5, 7, "receipt", none⟩ : Transaction).newStock =
        (⟨1, 4, .stockIn, 2, 5, 7, "receipt", none⟩ : Transaction).previousStock -
          (⟨1, 4, .stockIn, 2, 5, 7, "receipt", none⟩ : Transaction).quantity) ∧
    0 ≤ (⟨1, 4, .stockIn, 2, 5, 7, "receipt", none⟩ : Transaction).newStock ∧
    (⟨1, 4, .stockIn, 2, 5, 7, "receipt", none⟩ : Transaction).quantity ≠ 0 ∧
    0 < (⟨1, 4, .stockIn, 2, 5, 7, "receipt", none⟩ : Transaction).quantity :=
  stored_transactions_wellFormed
    [.create ⟨"Gadget", some "G-1", 2, 1, some 5, some 2, none, none⟩ 4,
     .adjust 1 2 "receipt" none 4]
    ⟨1, 4, .stockIn, 2, 5, 7, "receipt", none⟩ (by decide)

/-- C3: an otherwise-valid adjustment whose signed quantity would drive the
product's stock negative fails with the `'Insufficient stock'` response and
performs no mutation: the returned store is the input store, so neither the
product row nor the movement list changes. -/
theorem insufficientStock_rejected_no_mutation (s : Store) (pid : Nat) (q : Int)
    (r : String) (n : Option String) (u : Nat) (p : Product)
    (hq : q ≠ 0) (hr : r ≠ "") (hf : findByPk s pid = some p)
    (hneg : p.stockQuantity + q < 0) :
    adjustStock s pid q r n u = (.insufficientStock, s) :=
  adjustStock_insufficient s pid q r n u p (by simp [hq, hr]) hf hneg

/-- Witness for C3: stock 3, adjustment `-5`. -/
theorem insufficientStock_rejected_no_mutation_witness :
    adjustStock ⟨2, [⟨1, "Bolt", "B-1", 1, 1, 3, 5, none, "piece", true⟩], []⟩
        1 (-5) "sale" none 2 =
      (.insufficientStock, ⟨2, [⟨1, "Bolt", "B-1", 1, 1, 3, 5, none, "piece", true⟩], []⟩) :=
  insufficientStock_rejected_no_mutation
    ⟨2, [⟨1, "Bolt", "B-1", 1, 1, 3, 5, none, "piece", true⟩], []⟩
    1 (-5) "sale" none 2
    ⟨1, "Bolt", "B-1", 1, 1, 3, 5, none, "piece", true⟩
    (by decide) (by decide) (by decide) (by decide)

/-- C4: an adjustment with signed quantity `0` always fails with the
validation-error response (`stockAdjustmentValidation` rejects
`quantity === 0`) and returns the store untouched: no movement is created
and no product stock changes. -/
theorem zero_quantity_adjustment_rejected (s : Store) (pid : Nat) (r : String)
    (n : Option String) (u : Nat) :
    adjustStock s pid 0 r n u = (.validationError, s) :=
  adjustStock_validationError s pid 0 r n u (Or.inl rfl)

/-! ## Claim C5: atomicity of the two writes

The controller body is a plain `try { ... } catch` with **no** enclosing
database transaction (`sequelize.transaction` is never used):
`await product.update({ stockQuantity: newStock })` commits on its own, and
`await Transaction.create({...})` is a second, independent write. The
definition below is the same translation of `adjustStock` as above, except
that the `Transaction.create` call fails with a storage error; per the
JavaScript control flow the already-committed `product.update` stands and
the catch block answers 500. -/

/-- `adjustStock` when `Transaction.create` (controller lines 228-237)
throws after `product.update` (line 226) has committed: the stock counter is
already overwritten, no movement is recorded, and the catch block
(lines 249-251) returns the 500 response without undoing anything. -/
def adjustStockInsertFailure (s : Store) (pid : Nat) (quantity : Int) (reason : String)
    (notes : Option String) (userId : Nat) : AdjustResult × Store :=
  if quantity = 0 ∨ reason = "" then (.validationError, s)
  else
    match s.products.find? (fun p => p.id == pid) with
    | none => (.notFound, s)
    | some product =>
      let previousStock := product.stockQuantity
      let newStock := previousStock + quantity
      if newStock < 0 then (.insufficientStock, s)
      else
        (.serverError,
         { s with products := updateStock s.products pid newStock })

/-- C5 is violated by the code: when the movement insert fails after the
stock update, exactly one of the two writes takes effect. Starting from
stock 10, adjusting by `+5` with the insert failing leaves the product at 15
with no movement recorded — a failing call with an observable side effect,
contradicting all-or-nothing. (`userId` and `notes` values are immaterial:
the run never reaches them.) -/
theorem adjustStock_insert_failure_partial_commit :
    adjustStockInsertFailure
        ⟨2, [⟨1, "Widget", "W-1", 5, 3, 10, 5, none, "piece", true⟩], []⟩
        1 5 "receipt" none 1 =
      (.serverError, ⟨2, [⟨1, "Widget", "W-1", 5, 3, 15, 5, none, "piece", true⟩], []⟩) ∧
    (⟨2, [⟨1, "Widget", "W-1", 5, 3, 15, 5, none, "piece", true⟩], []⟩ : Store) ≠
      ⟨2, [⟨1, "Widget", "W-1", 5, 3, 10, 5, none, "piece", true⟩], []⟩ := by
  decide

/-! ## Claim C6: concurrency

Each `adjustStock` request samples the stock with `await Product.findByPk`
and later writes the absolute value it computed from its own sample; there
is no row lock, no version check and no retry anywhere in the controller.
Between the two `await`s any other request may run. The two definitions
below are `adjustStock` split at that suspension point; the equivalence
lemma shows the split is exact. -/

/-- The read step of `adjustStock`: `await Product.findByPk(req.params.id)`
(controller line 213). The returned object carries the stock value this
request will use for everything that follows. -/
def adjustReadPhase (s : Store) (pid : Nat) : Option Product :=
  s.products.find? (fun p => p.id == pid)

/-- The remainder of `adjustStock` (controller lines 219-248) running
against the product object sampled by this request's own read phase:
`previousStock` is the sampled stock, `newStock` is computed from it,
checked, written absolutely by `product.update`, and the movement built
from the same sample is inserted. Nothing re-reads the committed stock. -/
def adjustWritePhase (s : Store) (pid : Nat) (product : Product) (quantity : Int)
    (reason : String) (notes : Option String) (userId : Nat) : AdjustResult × Store :=
  let previousStock := product.stockQuantity
  let newStock := previousStock + quantity
  if newStock < 0 then (.insufficientStock, s)
  else
    let t : Transaction :=
      { productId := product.id
        userId := userId
        type := if quantity > 0 then .stockIn else .stockOut
        quantity := |quantity|
        previousStock := previousStock
        newStock := newStock
        reason := reason
        notes := notes }
    (.ok product.id product.name previousStock newStock quantity,
     { s with
        products := updateStock s.products pid newStock
        transactions := t :: s.transactions })

/-- The two phases compose to exactly the sequential `adjustStock`: running
the write phase immediately after one's own read phase is the uninterrupted
execution. -/
theorem adjustStock_eq_phases (s : Store) (pid : Nat) (q : Int) (r : String)
    (n : Option String) (u : Nat) (hval : ¬ (q = 0 ∨ r = "")) :
    adjustStock s pid q r n u =
      match adjustReadPhase s pid with
      | none => (.notFound, s)
      | some p => adjustWritePhase s pid p q r n u := by
  unfold adjustStock adjustReadPhase adjustWritePhase
  rw [if_neg hval]

/-- C6 is violated by the code: with the product at stock 10, scheduling the
`-5` and `+3` requests so that both `findByPk` reads complete before either
write (a legal interleaving of the two `await` chains — the controller takes
no lock) ends at stock 13, not 8: the `+3` writer stores `10 + 3` computed
from its stale sample, overwriting the `-5` writer's commit. The two stored
movements read 10→5 and 10→13: the later movement's `previousStock` (10) is
not the earlier one's `newStock` (5), so no serial order chains them — a
lost update. -/
theorem concurrent_adjust_lost_update :
    (adjustReadPhase ⟨2, [⟨1, "Widget", "W-1", 5, 3, 10, 5, none, "piece", true⟩], []⟩ 1 =
      some ⟨1, "Widget", "W-1", 5, 3, 10, 5, none, "piece", true⟩) ∧
    ((adjustWritePhase
        (adjustWritePhase ⟨2, [⟨1, "Widget", "W-1", 5, 3, 10, 5, none, "piece", true⟩], []⟩
          1 ⟨1, "Widget", "W-1", 5, 3, 10, 5, none, "piece", true⟩ (-5) "sale" none 1).2
        1 ⟨1, "Widget", "W-1", 5, 3, 10, 5, none, "piece", true⟩ 3 "receipt" none 2).2 =
      ⟨2, [⟨1, "Widget", "W-1", 5, 3, 13, 5, none, "piece", true⟩],
        [⟨1, 2, .stockIn, 3, 10, 13, "receipt", none⟩,
         ⟨1, 1, .stockOut, 5, 10, 5, "sale", none⟩]⟩) ∧
    (13 : Int) ≠ 8 ∧ (10 : Int) ≠ 5 := by
  decide

/-! ## Claim C7: low-stock classification vs the low-stock listing -/

/-- C7 as stated is false on the code: an active product sitting exactly at
its threshold (stock 5, `minStockLevel` 5) is classified low-stock by the
dashboard predicate (`<=`, app.js line 183) yet the backend `lowStock`
listing (`Op.lt`, controller line 27) excludes it, so the listing does not
return exactly the active products satisfying `isLowStock`. -/
theorem lowStock_listing_boundary_counterexample :
    isLowStock ⟨1, "Nut", "N-1", 1, 1, 5, 5, none, "piece", true⟩ = true ∧
    (⟨1, "Nut", "N-1", 1, 1, 5, 5, none, "piece", true⟩ : Product).isActive = true ∧
    getAllProductsLowStock [⟨1, "Nut", "N-1", 1, 1, 5, 5, none, "piece", true⟩] = [] := by
  decide

/-- C7 amended: `isLowStock` is true exactly when
`currentStock <= minStockLevel`, while the `lowStock` product listing
returns exactly the active products with `currentStock` strictly below
`minStockLevel`; the two disagree precisely on the boundary
`currentStock = minStockLevel`. -/
theorem isLowStock_le_and_listing_strict :
    (∀ p : Product, isLowStock p = true ↔ p.stockQuantity ≤ p.minStockLevel) ∧
    (∀ (ps : List Product) (p : Product),
      p ∈ getAllProductsLowStock ps ↔
        p ∈ ps ∧ p.isActive = true ∧ p.stockQuantity < p.minStockLevel) := by
  constructor
  · intro p
    simp [isLowStock]
  · intro ps p
    simp [getAllProductsLowStock, lowStockWhere, List.mem_filter, and_assoc]

/-! ## Claim C8: the dashboard aggregation -/

/-- Summing `stockQuantity * price` with `reduce` from accumulator `a` is
`a` plus the sum of the per-product terms. -/
theorem foldl_value_eq_sum (ps : List Product) (a : Rat) :
    ps.foldl (fun sum p => sum + (p.stockQuantity : Rat) * p.price) a =
      a + (ps.map (fun p => (p.stockQuantity : Rat) * p.price)).sum := by
  induction ps generalizing a with
  | nil => simp
  | cons p ps ih => simp [ih, add_assoc]

/-- C8 as stated is false on the code: `updateDashboardStats` aggregates
over every product in its input sequence, not only the active ones. On a
sequence holding one inactive product (stock 2, price 3) it reports one
product worth 6, where the claimed active-only aggregation reports zero
products worth 0. -/
theorem updateDashboardStats_counts_inactive_counterexample :
    updateDashboardStats [⟨1, "Old", "O-1", 3, 1, 2, 10, none, "piece", false⟩] =
      ⟨1, 1, 6⟩ ∧
    summarizeSpec [⟨1, "Old", "O-1", 3, 1, 2, 10, none, "piece", false⟩] =
      ⟨0, 1, 0⟩ ∧
    (⟨1, 1, 6⟩ : DashboardStats) ≠ ⟨0, 1, 0⟩ := by
  refine ⟨?_, ?_, by decide⟩
  · show DashboardStats.mk _ _ _ = _
    norm_num [updateDashboardStats, isLowStock]
  · norm_num [summarizeSpec, isLowStock]

/-- C8 amended: on any input sequence whose products are all active — as in
the application, where the dashboard is fed from the active-only product
listing — `updateDashboardStats` returns the low-stock count, the total
valuation `sum(currentStock * price)` and the product count of the claimed
active-only aggregation; it is a pure function of its input sequence, so
determinism and absence of mutation hold by construction. -/
theorem updateDashboardStats_eq_summarizeSpec_of_active (ps : List Product)
    (h : ∀ p ∈ ps, p.isActive = true) :
    updateDashboardStats ps = summarizeSpec ps := by
  have hfilter : ps.filter (fun p => p.isActive) = ps := by
    rw [List.filter_eq_self]
    intro p hp
    simpa using h p hp
  unfold updateDashboardStats summarizeSpec
  rw [hfilter, foldl_value_eq_sum, zero_add]
  simp [isLowStock]

/-- Witness for the amended C8: two active products, one low on stock. -/
theorem updateDashboardStats_eq_summarizeSpec_of_active_witness :
    updateDashboardStats
        [⟨1, "Nut", "N-1", 2, 1, 3, 5, none, "piece", true⟩,
         ⟨2, "Bolt", "B-1", 4, 2, 9, 5, none, "piece", true⟩] =
      summarizeSpec
        [⟨1, "Nut", "N-1", 2, 1, 3, 5, none, "piece", true⟩,
         ⟨2, "Bolt", "B-1", 4, 2, 9, 5, none, "piece", true⟩] :=
  updateDashboardStats_eq_summarizeSpec_of_active
    [⟨1, "Nut", "N-1", 2, 1, 3, 5, none, "piece", true⟩,
     ⟨2, "Bolt", "B-1", 4, 2, 9, 5, none, "piece", true⟩]
    (by decide)

/-! ## Claim C9: the stock-adjustment responses -/

/-- C9 as stated is false on the code: the success payload's `adjustment`
field is the signed request quantity (`adjustment: quantity`, controller
line 246), not its absolute value. Adjusting a stock of 10 by `-5` answers
`adjustment = -5`, which differs from the magnitude 5. -/
theorem adjustStock_response_signed_counterexample :
    (adjustStock ⟨2, [⟨1, "Widget", "W-1", 5, 3, 10, 5, none, "piece", true⟩], []⟩
        1 (-5) "sale" none 7).1 = .ok 1 "Widget" 10 5 (-5) ∧
    (-5 : Int) ≠ |(-5 : Int)| := by
  decide

/-- C9 amended: for a validated request, success answers the previous stock,
the new stock and the **signed** requested quantity as `adjustment` (the
magnitude is stored only on the movement record); a quantity that would
drive the stock negative answers the `'Insufficient stock'` client error;
a product id matching no row answers not-found. -/
theorem adjustStock_response_fields (s : Store) (pid : Nat) (q : Int) (r : String)
    (n : Option String) (u : Nat) (p : Product) (hq : q ≠ 0) (hr : r ≠ "") :
    (findByPk s pid = some p → 0 ≤ p.stockQuantity + q →
      (adjustStock s pid q r n u).1 = .ok p.id p.name p.stockQuantity (p.stockQuantity + q) q) ∧
    (findByPk s pid = some p → p.stockQuantity + q < 0 →
      (adjustStock s pid q r n u).1 = .insufficientStock) ∧
    (findByPk s pid = none → (adjustStock s pid q r n u).1 = .notFound) := by
  have hval : ¬ (q = 0 ∨ r = "") := by simp [hq, hr]
  refine ⟨?_, ?_, ?_⟩
  · intro hf hnn
    rw [adjustStock_success s pid q r n u p hval hf hnn]
  · intro hf hneg
    rw [adjustStock_insufficient s pid q r n u p hval hf hneg]
  · intro hf
    rw [adjustStock_notFound s pid q r n u hval hf]

/-- Witness for the amended C9: success at `-5` from stock 10, the
`'Insufficient stock'` error at `-11`, and not-found at the unused id 9. -/
theorem adjustStock_response_fields_witness :
    (adjustStock ⟨2, [⟨1, "Widget", "W-1", 5, 3, 10, 5, none, "piece", true⟩], []⟩
        1 (-5) "sale" none 7).1 = .ok 1 "Widget" 10 5 (-5) ∧
    (adjustStock ⟨2, [⟨1, "Widget", "W-1", 5, 3, 10, 5, none, "piece", true⟩], []⟩
        1 (-11) "sale" none 7).1 = .insufficientStock ∧
    (adjustStock ⟨2, [⟨1, "Widget", "W-1", 5, 3, 10, 5, none, "piece", true⟩], []⟩
        9 (-5) "sale" none 7).1 = .notFound :=
  ⟨(adjustStock_response_fields
      ⟨2, [⟨1, "Widget", "W-1", 5, 3, 10, 5, none, "piece", true⟩], []⟩ 1 (-5) "sale" none 7
      ⟨1, "Widget", "W-1", 5, 3, 10, 5, none, "piece", true⟩
      (by decide) (by decide)).1 (by decide) (by decide),
   (adjustStock_response_fields
      ⟨2, [⟨1, "Widget", "W-1", 5, 3, 10, 5, none, "piece", true⟩], []⟩ 1 (-11) "sale" none 7
      ⟨1, "Widget", "W-1", 5, 3, 10, 5, none, "piece", true⟩
      (by decide) (by decide)).2.1 (by decide) (by decide),
   (adjustStock_response_fields
      ⟨2, [⟨1, "Widget", "W-1", 5, 3, 10, 5, none, "piece", true⟩], []⟩ 9 (-5) "sale" none 7
      ⟨1, "Widget", "W-1", 5, 3, 10, 5, none, "piece", true⟩
      (by decide) (by decide)).2.2 (by decide)⟩

/-! ## Claim C10: creation defaults -/

/-- C10: in any valid creation, omitting `minStockLevel` or sending `0` for
it stores `10` (JavaScript `minStockLevel || 10` treats `0` as falsy);
omitting `stockQuantity` or sending `0` stores `0` with no initial movement
(the guard `stockQuantity > 0` fails for both `undefined` and `0`); and a
product created with both defaults has stock 0 against threshold 10, so the
dashboard classifies it low-stock immediately. -/
theorem createProduct_defaults (s : Store) (req : CreateProductRequest) (u : Nat)
    (hv : productValidation req = true) :
    ((req.minStockLevel = none ∨ req.minStockLevel = some 0) →
      (newProduct s req).minStockLevel = 10) ∧
    ((req.stockQuantity = none ∨ req.stockQuantity = some 0) →
      (newProduct s req).stockQuantity = 0 ∧
      (createProduct s req u).1 = .created (newProduct s req) ∧
      (createProduct s req u).2.transactions = s.transactions) ∧
    ((req.minStockLevel = none ∨ req.minStockLevel = some 0) →
      (req.stockQuantity = none ∨ req.stockQuantity = some 0) →
      isLowStock (newProduct s req) = true) := by
  have hmin : (req.minStockLevel = none ∨ req.minStockLevel = some 0) →
      (newProduct s req).minStockLevel = 10 := by
    rintro (hm | hm) <;> simp [newProduct, jsIntOr, hm]
  have hstk : (req.stockQuantity = none ∨ req.stockQuantity = some 0) →
      (newProduct s req).stockQuantity = 0 := by
    rintro (hs | hs) <;> simp [newProduct, jsIntOr, hs]
  refine ⟨hmin, ?_, ?_⟩
  · rintro hs
    refine ⟨hstk hs, ?_, ?_⟩
    · rcases hs with hs | hs
      · rw [createProduct_noStock s req u hv hs]
      · rw [createProduct_zeroStock s req u hv hs]
    · rcases hs with hs | hs
      · rw [createProduct_noStock s req u hv hs]
      · rw [createProduct_zeroStock s req u hv hs]
  · intro hm hs
    unfold isLowStock
    rw [hmin hm, hstk hs]
    decide

/-- Witness for C10: a request carrying only a name and prices. -/
theorem createProduct_defaults_witness :
    ((⟨"Plain", none, 1, 1, none, none, none, none⟩ : CreateProductRequest).minStockLevel = none ∨
      (⟨"Plain", none, 1, 1, none, none, none, none⟩ : CreateProductRequest).minStockLevel = some 0) ∧
    (newProduct emptyStore ⟨"Plain", none, 1, 1, none, none, none, none⟩).minStockLevel = 10 ∧
    (newProduct emptyStore ⟨"Plain", none, 1, 1, none, none, none, none⟩).stockQuantity = 0 ∧
    (createProduct emptyStore ⟨"Plain", none, 1, 1, none, none, none, none⟩ 1).2.transactions =
      emptyStore.transactions ∧
    isLowStock (newProduct emptyStore ⟨"Plain", none, 1, 1, none, none, none, none⟩) = true :=
  ⟨Or.inl rfl,
   (createProduct_defaults emptyStore ⟨"Plain", none, 1, 1, none, none, none, none⟩ 1
      (by decide)).1 (Or.inl rfl),
   ((createProduct_defaults emptyStore ⟨"Plain", none, 1, 1, none, none, none, none⟩ 1
      (by decide)).2.1 (Or.inl rfl)).1,
   ((createProduct_defaults emptyStore ⟨"Plain", none, 1, 1, none, none, none, none⟩ 1
      (by decide)).2.1 (Or.inl rfl)).2.2,
   (createProduct_defaults emptyStore ⟨"Plain", none, 1, 1, none, none, none, none⟩ 1
      (by decide)).2.2 (Or.inl rfl) (Or.inl rfl)⟩
